import Mathlib

/-!
Verification of the streaming chat relay in `app.py`.

The development shallowly embeds the program's data model and its three
contract-bearing operations:

* `stream_openai_response` — the SSE generator (the Completion Streamer):
  given the optional client state, a user message, a model identifier and
  the behaviour of the upstream stream, it produces the list of SSE frames
  written to the wire.  The upstream stream is modelled as the list of
  chunks it delivers followed by an optional exception message (`none`
  means natural exhaustion, `some e` means the iteration — or the initial
  `create` call, when no chunks were delivered — raised with `str(e) = e`).
* `chat` — the `/chat` request handler: client check, allow-list check,
  then the streaming response.
* `list_models` — the `/models` handler.

Pydantic request validation of `ChatRequest` (field constraints
`min_length=1` on `message`, default on `model`) is embedded as
`parseChatRequest`; pydantic's compact JSON serialisation
(`model_dump_json`) is embedded as `jsonString` together with the frame
builders `fragmentFrame`, `errorFrame` and `doneFrame`.
-/

/-- `DEFAULT_MODEL` constant of `app.py`. -/
def DEFAULT_MODEL : String := "gpt-4o-mini"

/-- `AVAILABLE_MODELS` constant of `app.py`.  The Python value is a `set`;
it is embedded as the list of its elements in source order, with set
membership the only operation the program performs on it besides
`list(...)`. -/
def AVAILABLE_MODELS : List String :=
  ["gpt-4o-mini", "gpt-4o", "gpt-4-turbo", "gpt-3.5-turbo"]

/-- `SYSTEM_PROMPT` constant of `app.py`, the concatenation of the three
adjacent string literals of the source (note the two spaces after the
display-math sentence, exactly as in the source). -/
def SYSTEM_PROMPT : String :=
  "You are a helpful mathematics tutor. Use LaTeX notation for all "
    ++ "mathematical expressions. For inline math use $...$ and for display "
    ++ "math use $$...$$.  Provide clear, step-by-step explanations."

/-- The system prompt as quoted by the specification and by the claim
(single space after the display-math sentence).  This definition follows
the spec's words, not the source; it exists only to be compared with
`SYSTEM_PROMPT`. -/
def SPEC_SYSTEM_PROMPT : String :=
  "You are a helpful mathematics tutor. Use LaTeX notation for all mathematical expressions. For inline math use $...$ and for display math use $$...$$. Provide clear, step-by-step explanations."

/-- Lower-case hexadecimal digit, as used by the JSON serialiser for
control-character escapes. -/
def hexDigit (n : Nat) : Char :=
  if n < 10 then Char.ofNat (48 + n) else Char.ofNat (87 + n)

/-- JSON escaping of one character, following the serialiser behind
pydantic's `model_dump_json`: short escapes for quote, backslash and the
five named control characters, `\u00XX` for the remaining control
characters, everything else verbatim. -/
def jsonEscapeChar (c : Char) : List Char :=
  if c = '"' then ['\\', '"']
  else if c = '\\' then ['\\', '\\']
  else if c = '\x08' then ['\\', 'b']
  else if c = '\t' then ['\\', 't']
  else if c = '\n' then ['\\', 'n']
  else if c = '\x0c' then ['\\', 'f']
  else if c = '\r' then ['\\', 'r']
  else if c.toNat < 32 then
    ['\\', 'u', '0', '0', hexDigit (c.toNat / 16), hexDigit (c.toNat % 16)]
  else [c]

/-- Compact JSON encoding of a string value (quotes included). -/
def jsonString (s : String) : String :=
  String.mk ('"' :: (s.data.flatMap jsonEscapeChar ++ ['"']))

/-- The SSE frame yielded for one content fragment:
`yield f"data: \x7bresponse.model_dump_json()\x7d\n\n"` with
`StreamResponse(content=content, error=None)`. -/
def fragmentFrame (t : String) : String :=
  "data: \x7b\"content\":" ++ jsonString t ++ ",\"error\":null\x7d\n\n"

/-- The SSE frame yielded for an error:
`yield f"data: \x7berror_response.model_dump_json()\x7d\n\n"` with
`ErrorResponse(error=...)` — a model having only the `error` field. -/
def errorFrame (m : String) : String :=
  "data: \x7b\"error\":" ++ jsonString m ++ "\x7d\n\n"

/-- The final SSE frame of a successful stream: `yield "data: [DONE]\n\n"`. -/
def doneFrame : String := "data: [DONE]\n\n"

/-- The error frame shape asserted by the specification: a JSON object
with a null `content` field alongside `error`.  This definition follows
the spec's words, not the source; it exists only to be compared with
`errorFrame`. -/
def specErrorFrame (m : String) : String :=
  "data: \x7b\"content\":null,\"error\":" ++ jsonString m ++ "\x7d\n\n"

/-- The `delta` part of one upstream streaming choice. -/
structure Delta where
  content : Option String
deriving DecidableEq

/-- One element of `chunk.choices`. -/
structure Choice where
  delta : Delta
deriving DecidableEq

/-- One chunk of the upstream stream. -/
structure Chunk where
  choices : List Choice
deriving DecidableEq

/-- Behaviour of one upstream streaming completion call: the chunks it
delivers in order, then either natural exhaustion (`err = none`) or a
raised exception whose `str(e)` is `e` (`err = some e`; when the `create`
call itself raises, `chunks = []`). -/
structure Upstream where
  chunks : List Chunk
  err : Option String
deriving DecidableEq

/-- The fragment the generator's loop body extracts from a chunk, when
any: the loop yields a frame exactly when `chunk.choices` is non-empty
and `chunk.choices[0].delta.content` is truthy (neither `None` nor the
empty string), and then uses that content. -/
def fragmentOfChunk (c : Chunk) : Option String :=
  match c.choices with
  | [] => none
  | ch :: _ =>
    match ch.delta.content with
    | none => none
    | some t => if t = "" then none else some t

/-- The content delta carried by a chunk, if any (the claims speak of
"content deltas received"; a chunk with no choices or with `content=None`
carries none). -/
def deltaOfChunk (c : Chunk) : Option String :=
  match c.choices with
  | [] => none
  | ch :: _ => ch.delta.content

/-- The content deltas received over an upstream chunk sequence. -/
def contentDeltas (chunks : List Chunk) : List String :=
  chunks.filterMap deltaOfChunk

/-- One message of the upstream prompt
(`ChatCompletionSystemMessageParam` / `ChatCompletionUserMessageParam`). -/
structure ChatMessage where
  role : String
  content : String
deriving DecidableEq

/-- The argument record of `client.chat.completions.create`. -/
structure CompletionRequest where
  model : String
  messages : List ChatMessage
  stream : Bool
  max_tokens : Nat
deriving DecidableEq

/-- The `messages` list built by `stream_openai_response`. -/
def buildMessages (message : String) : List ChatMessage :=
  [⟨"system", SYSTEM_PROMPT⟩, ⟨"user", message⟩]

/-- The upstream completion requests issued by one run of
`stream_openai_response`: none when no client is configured, exactly the
one `create(model=model, messages=..., stream=True, max_tokens=2000)`
call otherwise. -/
def requestsIssued (clientConfigured : Bool) (message model : String) :
    List CompletionRequest :=
  if clientConfigured then [⟨model, buildMessages message, true, 2000⟩] else []

/-- `stream_openai_response` of `app.py`, as the list of SSE frames it
yields.  `clientConfigured` is whether `get_openai_client()` returns a
client; `up` is the behaviour of the upstream stream.  The `message` and
`model` arguments feed only the upstream request (see `requestsIssued`),
not the framing. -/
def stream_openai_response (clientConfigured : Bool) (message model : String)
    (up : Upstream) : List String :=
  if clientConfigured = false then
    [errorFrame ("OpenAI API key not configured")]
  else
    ((up.chunks.filterMap fragmentOfChunk).map fragmentFrame)
      ++ (match up.err with
          | none => [doneFrame]
          | some e => [errorFrame ("API error: " ++ e)])

/-- A parsed `/chat` request body (`ChatRequest` pydantic model). -/
structure ChatRequest where
  message : String
  model : String
deriving DecidableEq

/-- A raw `/chat` request body before pydantic validation: each field
either present (with a string value) or absent. -/
structure RawChatRequest where
  message : Option String
  model : Option String
deriving DecidableEq

/-- Pydantic validation of `ChatRequest` as declared in `app.py`:
`message` is required with `min_length=1`; `model` defaults to
`DEFAULT_MODEL`.  A `ValidationError` is surfaced by FastAPI as
HTTP 422 before the handler runs. -/
def parseChatRequest (raw : RawChatRequest) : Except Nat ChatRequest :=
  match raw.message with
  | none => Except.error 422
  | some m =>
    if m.length < 1 then Except.error 422
    else Except.ok ⟨m, raw.model.getD DEFAULT_MODEL⟩

/-- Result of the `/chat` handler: a synchronous HTTP error, or a
streaming response with its media type and frame sequence. -/
inductive ChatResult where
  | httpError (code : Nat) (detail : String)
  | streaming (mediaType : String) (frames : List String)
deriving DecidableEq

/-- The `chat` handler of `app.py`: 503 when no client, 400 when the
model is not in the allow-list, otherwise a `text/event-stream`
`StreamingResponse` over `stream_openai_response`. -/
def chat (clientConfigured : Bool) (request : ChatRequest) (up : Upstream) :
    ChatResult :=
  if clientConfigured = false then
    ChatResult.httpError 503 ("OpenAI API key not configured")
  else if request.model ∉ AVAILABLE_MODELS then
    ChatResult.httpError 400 ("Model not supported")
  else
    ChatResult.streaming ("text/event-stream")
      (stream_openai_response clientConfigured request.message request.model up)

/-- Body of a successful `/models` response (`ModelsResponse` model). -/
structure ModelsResponse where
  models : List String
  default_model : String
deriving DecidableEq

/-- Result of the `/models` handler. -/
inductive ModelsResult where
  | httpError (code : Nat) (detail : String)
  | ok (resp : ModelsResponse)
deriving DecidableEq

/-- The `list_models` handler of `app.py`, parametrised by the allow-list
and the default model so that both branches can be stated.  `list(set)`
is embedded as the list itself and `list(...)[0]` as its head. -/
def list_models (available : List String) (defaultModel : String) :
    ModelsResult :=
  match available with
  | [] => ModelsResult.httpError 503 ("No models configured")
  | a :: rest =>
    ModelsResult.ok
      ⟨a :: rest, if defaultModel ∈ a :: rest then defaultModel else a⟩

/-- A frame is terminal when it is the Done frame or an Error frame. -/
def terminalFrame (f : String) : Prop :=
  f = doneFrame ∨ ∃ m, f = errorFrame m

/-- Concrete upstream chunk delivering the fragment "The". -/
def chunkThe : Chunk := ⟨[⟨⟨some ("The")⟩⟩]⟩

/-- Concrete upstream stream raising after one fragment. -/
def upErr : Upstream := ⟨[chunkThe], some ("boom")⟩

/-- Concrete upstream stream exhausting naturally after one fragment, one
chunk with no choices, one empty delta and one `None` delta. -/
def upOk : Upstream :=
  ⟨[chunkThe, ⟨[]⟩, ⟨[⟨⟨some ("")⟩⟩]⟩, ⟨[⟨⟨none⟩⟩]⟩], none⟩

/-- The first nine characters of a fragment frame. -/
theorem take9_fragmentFrame (t : String) :
    (fragmentFrame t).data.take 9 = ("data: \x7b\"c").data := by
  show ((("data: \x7b\"content\":" : String)
      ++ (jsonString t ++ ",\"error\":null\x7d\n\n")).data).take 9 = _
  rw [String.data_append]
  rw [List.take_append_of_le_length (by decide)]
  decide

/-- The first nine characters of an error frame. -/
theorem take9_errorFrame (m : String) :
    (errorFrame m).data.take 9 = ("data: \x7b\"e").data := by
  show ((("data: \x7b\"error\":" : String)
      ++ (jsonString m ++ "\x7d\n\n")).data).take 9 = _
  rw [String.data_append]
  rw [List.take_append_of_le_length (by decide)]
  decide

/-- A fragment frame is never the Done frame. -/
theorem fragmentFrame_ne_doneFrame (t : String) : fragmentFrame t ≠ doneFrame := by
  intro h
  have h9 : (fragmentFrame t).data.take 9 = doneFrame.data.take 9 := by rw [h]
  rw [take9_fragmentFrame] at h9
  exact absurd h9 (by decide)

/-- A fragment frame is never an error frame. -/
theorem fragmentFrame_ne_errorFrame (t m : String) :
    fragmentFrame t ≠ errorFrame m := by
  intro h
  have h9 : (fragmentFrame t).data.take 9 = (errorFrame m).data.take 9 := by
    rw [h]
  rw [take9_fragmentFrame, take9_errorFrame] at h9
  exact absurd h9 (by decide)

/-- The Done frame is never an error frame. -/
theorem doneFrame_ne_errorFrame (m : String) : doneFrame ≠ errorFrame m := by
  intro h
  have h9 : doneFrame.data.take 9 = (errorFrame m).data.take 9 := by rw [h]
  rw [take9_errorFrame] at h9
  exact absurd h9 (by decide)

/-- A fragment frame is not terminal. -/
theorem fragmentFrame_not_terminal (t : String) :
    ¬ terminalFrame (fragmentFrame t) := by
  rintro (h | ⟨m, h⟩)
  · exact fragmentFrame_ne_doneFrame t h
  · exact fragmentFrame_ne_errorFrame t m h

/-- The generator's per-chunk filtering keeps exactly the non-empty
content deltas. -/
theorem filterMap_fragmentOfChunk (chunks : List Chunk) :
    chunks.filterMap fragmentOfChunk
      = (contentDeltas chunks).filter (fun t => !(t == "")) := by
  induction chunks with
  | nil => rfl
  | cons c cs ih =>
    rcases c with ⟨choices⟩
    rcases choices with _ | ⟨⟨⟨content⟩⟩, rest⟩
    · simpa [List.filterMap_cons, fragmentOfChunk, contentDeltas,
        deltaOfChunk] using ih
    · rcases content with _ | t
      · simpa [List.filterMap_cons, fragmentOfChunk, contentDeltas,
          deltaOfChunk] using ih
      · by_cases ht : t = ""
        · subst ht
          simpa [List.filterMap_cons, fragmentOfChunk, contentDeltas,
            deltaOfChunk] using ih
        · simpa [List.filterMap_cons, fragmentOfChunk, contentDeltas,
            deltaOfChunk, List.filter_cons, ht] using ih

/-- C1: every execution of the Completion Streamer produces a frame
sequence closed by exactly one terminal frame — the Done frame or an
Error frame — with no frame of any kind after it and no terminal frame
before it. -/
theorem stream_closed_by_one_terminal (clientConfigured : Bool)
    (message model : String) (up : Upstream) :
    ∃ init last,
      stream_openai_response clientConfigured message model up = init ++ [last]
        ∧ terminalFrame last ∧ ∀ f ∈ init, ¬ terminalFrame f := by
  cases clientConfigured with
  | false =>
    refine ⟨[], errorFrame ("OpenAI API key not configured"), rfl,
      Or.inr ⟨_, rfl⟩, ?_⟩
    intro f hf
    cases hf
  | true =>
    cases herr : up.err with
    | none =>
      refine ⟨(up.chunks.filterMap fragmentOfChunk).map fragmentFrame,
        doneFrame, ?_, Or.inl rfl, ?_⟩
      · simp [stream_openai_response, herr]
      · intro f hf
        obtain ⟨t, _, rfl⟩ := List.mem_map.mp hf
        exact fragmentFrame_not_terminal t
    | some e =>
      refine ⟨(up.chunks.filterMap fragmentOfChunk).map fragmentFrame,
        errorFrame ("API error: " ++ e), ?_, Or.inr ⟨_, rfl⟩, ?_⟩
      · simp [stream_openai_response, herr]
      · intro f hf
        obtain ⟨t, _, rfl⟩ := List.mem_map.mp hf
        exact fragmentFrame_not_terminal t

/-- With a client and a raising upstream, the generator's output is the
fragment frames followed by the one error frame. -/
theorem stream_eq_of_err (message model : String) (up : Upstream)
    (e : String) (h : up.err = some e) :
    stream_openai_response true message model up
      = (up.chunks.filterMap fragmentOfChunk).map fragmentFrame
          ++ [errorFrame ("API error: " ++ e)] := by
  simp [stream_openai_response, h]

/-- C2: when the upstream stream raises after delivering some chunks, the
output is the fragment frames for those chunks followed by exactly one
terminal Error frame, and no Done frame is emitted. -/
theorem stream_upstream_error (message model : String) (up : Upstream)
    (e : String) (h : up.err = some e) :
    stream_openai_response true message model up
        = (up.chunks.filterMap fragmentOfChunk).map fragmentFrame
            ++ [errorFrame ("API error: " ++ e)]
      ∧ doneFrame ∉ stream_openai_response true message model up := by
  have heq := stream_eq_of_err message model up e h
  refine ⟨heq, ?_⟩
  rw [heq]
  intro hmem
  rcases List.mem_append.mp hmem with h1 | h2
  · obtain ⟨t, _, ht⟩ := List.mem_map.mp h1
    exact fragmentFrame_ne_doneFrame t ht
  · rw [List.mem_singleton] at h2
    exact doneFrame_ne_errorFrame _ h2

/-- Witness for `stream_upstream_error`: upstream delivering one fragment
"The" then raising "boom". -/
theorem stream_upstream_error_witness :
    stream_openai_response true ("hi") ("gpt-4o-mini") upErr
        = (upErr.chunks.filterMap fragmentOfChunk).map fragmentFrame
            ++ [errorFrame ("API error: " ++ "boom")]
      ∧ doneFrame ∉ stream_openai_response true ("hi") ("gpt-4o-mini") upErr :=
  stream_upstream_error ("hi") ("gpt-4o-mini") upErr ("boom") rfl

/-- C4: with no client configured, the streamer emits exactly one Error
frame with message "OpenAI API key not configured" and terminates: no
fragment frame and no Done frame appear. -/
theorem stream_no_client (message model : String) (up : Upstream) :
    stream_openai_response false message model up
        = [errorFrame ("OpenAI API key not configured")]
      ∧ (∀ t, fragmentFrame t ∉ stream_openai_response false message model up)
      ∧ doneFrame ∉ stream_openai_response false message model up := by
  refine ⟨rfl, ?_, ?_⟩
  · intro t hmem
    rw [show stream_openai_response false message model up
        = [errorFrame ("OpenAI API key not configured")] from rfl,
      List.mem_singleton] at hmem
    exact fragmentFrame_ne_errorFrame t _ hmem
  · intro hmem
    rw [show stream_openai_response false message model up
        = [errorFrame ("OpenAI API key not configured")] from rfl,
      List.mem_singleton] at hmem
    exact doneFrame_ne_errorFrame _ hmem

/-- C5: when the upstream stream is exhausted without error, the output
is one fragment frame per non-empty content delta received (empty and
absent deltas are skipped), followed by exactly one Done frame. -/
theorem stream_natural_exhaustion (message model : String) (up : Upstream)
    (h : up.err = none) :
    stream_openai_response true message model up
      = ((contentDeltas up.chunks).filter (fun t => !(t == ""))).map
          fragmentFrame ++ [doneFrame] := by
  have heq := filterMap_fragmentOfChunk up.chunks
  simp [stream_openai_response, h, ← heq]

/-- Witness for `stream_natural_exhaustion`: upstream delivering one
fragment "The", a chunk with no choices, an empty delta and a `None`
delta, then exhausting. -/
theorem stream_natural_exhaustion_witness :
    stream_openai_response true ("hi") ("gpt-4o-mini") upOk
      = ((contentDeltas upOk.chunks).filter (fun t => !(t == ""))).map
          fragmentFrame ++ [doneFrame] :=
  stream_natural_exhaustion ("hi") ("gpt-4o-mini") upOk rfl

/-- C3 counterexample: in the no-credential case the frame actually
emitted is a JSON object with only the `error` field; it is not the
spec's shape with a null `content` field. -/
theorem error_frame_lacks_content_field :
    stream_openai_response false ("hi") ("gpt-4o-mini") upOk
        = [("data: \x7b\"error\":\"OpenAI API key not configured\"\x7d\n\n")]
      ∧ ("data: \x7b\"error\":\"OpenAI API key not configured\"\x7d\n\n")
          ≠ specErrorFrame ("OpenAI API key not configured") := by
  constructor
  · decide
  · decide

/-- C3 amended: every error frame is the compact JSON object with a
single `error` field, `data: \x7b"error": m\x7d` followed by the blank
line, both in the no-credential case and in the upstream-error case
(where the message is "API error: " followed by the exception text). -/
theorem error_frame_bytes (message model : String) (up : Upstream)
    (e : String) (h : up.err = some e) :
    stream_openai_response false message model up
        = [("data: \x7b\"error\":" ++ jsonString ("OpenAI API key not configured")
            ++ "\x7d\n\n")]
      ∧ (stream_openai_response true message model up).getLast?
          = some ("data: \x7b\"error\":" ++ jsonString ("API error: " ++ e)
              ++ "\x7d\n\n") := by
  constructor
  · rfl
  · rw [stream_eq_of_err message model up e h]
    exact List.getLast?_concat _

/-- Witness for `error_frame_bytes` at the concrete upstream `upErr`. -/
theorem error_frame_bytes_witness :
    stream_openai_response false ("hi") ("gpt-4o-mini") upErr
        = [("data: \x7b\"error\":" ++ jsonString ("OpenAI API key not configured")
            ++ "\x7d\n\n")]
      ∧ (stream_openai_response true ("hi") ("gpt-4o-mini") upErr).getLast?
          = some ("data: \x7b\"error\":" ++ jsonString ("API error: " ++ "boom")
              ++ "\x7d\n\n") :=
  error_frame_bytes ("hi") ("gpt-4o-mini") upErr ("boom") rfl

/-- C6: the `/chat` handler fails with HTTP 503 whenever no client is
configured (regardless of the requested model), fails with HTTP 400 when
a client is configured but the model is not in the allow-list, and only
when both checks pass starts a `text/event-stream` response over the
streamer's frames. -/
theorem chat_precheck_order (request : ChatRequest) (up : Upstream) :
    chat false request up
        = ChatResult.httpError 503 ("OpenAI API key not configured")
      ∧ (request.model ∉ AVAILABLE_MODELS →
          chat true request up = ChatResult.httpError 400 ("Model not supported"))
      ∧ (request.model ∈ AVAILABLE_MODELS →
          chat true request up = ChatResult.streaming ("text/event-stream")
            (stream_openai_response true request.message request.model up)) := by
  refine ⟨rfl, ?_, ?_⟩
  · intro h
    simp [chat, h]
  · intro h
    simp [chat, h]

/-- Witness for `chat_precheck_order`: requests with an unsupported and a
supported model. -/
theorem chat_precheck_order_witness :
    chat false ⟨"hi", "nope"⟩ upErr
        = ChatResult.httpError 503 ("OpenAI API key not configured")
      ∧ chat true ⟨"hi", "nope"⟩ upErr
          = ChatResult.httpError 400 ("Model not supported")
      ∧ chat true ⟨"hi", "gpt-4o"⟩ upErr
          = ChatResult.streaming ("text/event-stream")
              (stream_openai_response true ("hi") ("gpt-4o") upErr) :=
  ⟨(chat_precheck_order ⟨"hi", "nope"⟩ upErr).1,
    (chat_precheck_order ⟨"hi", "nope"⟩ upErr).2.1 (by decide),
    (chat_precheck_order ⟨"hi", "gpt-4o"⟩ upErr).2.2 (by decide)⟩

/-- C7 counterexample: a body with a non-empty `message` and no `model`
field parses successfully — `model` has the default "gpt-4o-mini" — so
omitting `model` does not raise a ValidationError. -/
theorem missing_model_field_defaults :
    parseChatRequest ⟨some ("hi"), none⟩ = Except.ok ⟨"hi", "gpt-4o-mini"⟩ :=
  rfl

/-- C7 amended: an empty (or missing) `message` fails validation with
HTTP 422 before any stream is opened, while an omitted `model` field does
not fail: it defaults to `DEFAULT_MODEL`. -/
theorem parse_chat_request_validation (raw : RawChatRequest) :
    (raw.message = some ("") → parseChatRequest raw = Except.error 422)
      ∧ (raw.message = none → parseChatRequest raw = Except.error 422)
      ∧ (∀ m, raw.message = some m → m ≠ "" → raw.model = none →
          parseChatRequest raw = Except.ok ⟨m, DEFAULT_MODEL⟩) := by
  refine ⟨?_, ?_, ?_⟩
  · intro h
    simp [parseChatRequest, h]
  · intro h
    simp [parseChatRequest, h]
  · intro m hm hne hmodel
    have hlen : ¬ m.length < 1 := by
      have hne0 : m.length ≠ 0 := by
        intro h0
        apply hne
        cases m with
        | mk d =>
          have hd : d = [] := List.length_eq_zero.mp h0
          simp [hd]
      omega
    simp [parseChatRequest, hm, hmodel, hlen]

/-- Witness for `parse_chat_request_validation`: empty message, missing
message, and missing model. -/
theorem parse_chat_request_validation_witness :
    parseChatRequest ⟨some (""), some ("gpt-4o")⟩ = Except.error 422
      ∧ parseChatRequest ⟨none, none⟩ = Except.error 422
      ∧ parseChatRequest ⟨some ("hello"), none⟩
          = Except.ok ⟨"hello", DEFAULT_MODEL⟩ :=
  ⟨(parse_chat_request_validation ⟨some (""), some ("gpt-4o")⟩).1 rfl,
    (parse_chat_request_validation ⟨none, none⟩).2.1 rfl,
    (parse_chat_request_validation ⟨some ("hello"), none⟩).2.2 ("hello") rfl
      (by decide) rfl⟩

/-- C8 counterexample: at message "x" and model "gpt-4o-mini" the single
issued request carries the source's `SYSTEM_PROMPT`, which differs from
the fixed text the claim quotes (the source has two spaces after the
display-math sentence, the claim one). -/
theorem request_system_prompt_differs_from_claim :
    requestsIssued true ("x") ("gpt-4o-mini")
        = [⟨"gpt-4o-mini", [⟨"system", SYSTEM_PROMPT⟩, ⟨"user", "x"⟩],
            true, 2000⟩]
      ∧ SYSTEM_PROMPT ≠ SPEC_SYSTEM_PROMPT := by
  constructor
  · rfl
  · decide

/-- C8 amended: with a client available, exactly one upstream streaming
completion request is issued; its prompt is the fixed system message
(with the source's exact text, two spaces after the display-math
sentence) followed by a user message equal to the input, with the given
model, `max_tokens = 2000` and `stream = true`. -/
theorem request_construction (message model : String) :
    (requestsIssued true message model).length = 1
      ∧ requestsIssued true message model
          = [⟨model, [⟨"system",
              "You are a helpful mathematics tutor. Use LaTeX notation for all mathematical expressions. For inline math use $...$ and for display math use $$...$$.  Provide clear, step-by-step explanations."⟩,
              ⟨"user", message⟩], true, 2000⟩] := by
  constructor
  · rfl
  · rfl

/-- C9: `GET /models` with the program's non-empty allow-list returns a
body whose `models` list is set-equal to the allow-list and whose
`default_model` is the designated default; with an empty allow-list it
fails with HTTP 503. -/
theorem models_endpoint_contract :
    (∃ resp, list_models AVAILABLE_MODELS DEFAULT_MODEL = ModelsResult.ok resp
        ∧ (∀ x, x ∈ resp.models ↔ x ∈ AVAILABLE_MODELS)
        ∧ resp.default_model = DEFAULT_MODEL)
      ∧ ∀ dm, list_models [] dm
          = ModelsResult.httpError 503 ("No models configured") := by
  constructor
  · refine ⟨⟨AVAILABLE_MODELS, DEFAULT_MODEL⟩, by decide, ?_, rfl⟩
    intro x
    exact Iff.rfl
  · intro dm
    rfl

/-- C10: the designated default model is in the allow-list, the `/models`
fallback branch is unreachable (any successful response carries exactly
`DEFAULT_MODEL`), and a `/chat` request for the default model with a
client configured always passes the allow-list check and starts the
stream. -/
theorem default_model_in_allow_list :
    DEFAULT_MODEL ∈ AVAILABLE_MODELS
      ∧ (∀ resp, list_models AVAILABLE_MODELS DEFAULT_MODEL
            = ModelsResult.ok resp → resp.default_model = DEFAULT_MODEL)
      ∧ ∀ (up : Upstream) (message : String),
          chat true ⟨message, DEFAULT_MODEL⟩ up
            = ChatResult.streaming ("text/event-stream")
                (stream_openai_response true message DEFAULT_MODEL up) := by
  refine ⟨by decide, ?_, ?_⟩
  · intro resp h
    rw [show list_models AVAILABLE_MODELS DEFAULT_MODEL
        = ModelsResult.ok ⟨AVAILABLE_MODELS, DEFAULT_MODEL⟩ from by decide] at h
    cases h
    rfl
  · intro up message
    rfl

/-- Witness for `default_model_in_allow_list` at a concrete response and
request. -/
theorem default_model_in_allow_list_witness :
    DEFAULT_MODEL ∈ AVAILABLE_MODELS
      ∧ (⟨AVAILABLE_MODELS, DEFAULT_MODEL⟩ : ModelsResponse).default_model
          = DEFAULT_MODEL
      ∧ chat true ⟨"hi", DEFAULT_MODEL⟩ upErr
          = ChatResult.streaming ("text/event-stream")
              (stream_openai_response true ("hi") DEFAULT_MODEL upErr) :=
  ⟨default_model_in_allow_list.1,
    default_model_in_allow_list.2.1 ⟨AVAILABLE_MODELS, DEFAULT_MODEL⟩
      (by decide),
    default_model_in_allow_list.2.2 upErr ("hi")⟩
